import Mathlib

/-
Shallow embedding of the bucket lifecycle engine of the auto-healing
repository: the delete path (lambda-functions/delete-bucket/index.py),
the reconciliation sweep (lambda-functions/monitor-buckets/index.py)
and the provisioning step of recreate_bucket.
-/

namespace AutoHeal

/-- Dynamically typed attribute value as stored in the metadata store;
the should_heal flag can arrive as a boolean, a string, a number or null. -/
inductive AttrVal where
  | boolV (b : Bool)
  | strV (s : String)
  | numV (n : Int)
  | nullV
deriving Repr, DecidableEq

/-- One metadata record (one DynamoDB item), with the fields the
delete path and the monitor read or write. Absent attributes are none. -/
structure Item where
  project_name : String
  bucket_name : String
  user_id : String
  user_email : String
  display_name : String
  status : Option String
  deleted_at : Option String
  deleted_by : Option String
  deleted_by_email : Option String
  should_heal : Option AttrVal
  heal_count : Option Nat
  healed_at : Option String
  last_checked : Option String
deriving Repr, DecidableEq

/-- An authenticated actor: claims sub, email and Cognito group names. -/
structure Actor where
  user_id : String
  user_email : String
  groups : List String
deriving Repr, DecidableEq

/-- Whether pat is a leading segment of s, on character lists. -/
def listStartsWith : List Char → List Char → Bool
  | [], _ => true
  | _ :: _, [] => false
  | p :: ps, c :: cs => p == c && listStartsWith ps cs

/-- Whether pat occurs as a contiguous segment of s, on character lists. -/
def listHasSub (pat : List Char) : List Char → Bool
  | [] => pat.isEmpty
  | c :: cs => listStartsWith pat (c :: cs) || listHasSub pat cs

/-- Substring occurrence test, modelling the Python `pat in s` check. -/
def strContains (s pat : String) : Bool :=
  listHasSub pat.data s.data

/-- Python truthiness of the raw should_heal attribute, which is also the
result of the coercion at monitor-buckets/index.py lines 45-49 (bool stays,
str/int/float go through bool(), None becomes False, absent defaults False). -/
def attrTruthy : Option AttrVal → Bool
  | none => false
  | some (AttrVal.boolV b) => b
  | some (AttrVal.strV s) => s != ""
  | some (AttrVal.numV n) => n != 0
  | some AttrVal.nullV => false

/-- Python truthiness of an optional string attribute such as deleted_at. -/
def optStrTruthy : Option String → Bool
  | none => false
  | some s => s != ""

/-- Super-admin check of delete-bucket/index.py lines 27-41: email on the
static admin allow-list, or membership of the admins group. -/
def is_super_admin (admin_emails : List String) (a : Actor) : Bool :=
  admin_emails.contains a.user_email || a.groups.contains "admins"

/-- Business-admin check of delete-bucket/index.py lines 43-50. -/
def is_business_admin (a : Actor) : Bool :=
  a.groups.contains "business-admins"

/-- The should_heal decision of delete-bucket/index.py lines 156-175,
mirroring the if/elif chain in the same order. -/
def decide_should_heal (is_owner isBus isSup : Bool) : Bool :=
  let isAdmin := isSup || isBus
  if is_owner && !isAdmin then false
  else if isBus then true
  else if isSup then false
  else if !is_owner && !isAdmin then true
  else false

/-- The metadata update of delete-bucket/index.py lines 213-231: SET
deleted_at, deleted_by, deleted_by_email, should_heal, status=deleted. -/
def applyDelete (item : Item) (now actor_id actor_email : String) (sh : Bool) : Item :=
  { item with
    deleted_at := some now
    deleted_by := some actor_id
    deleted_by_email := some actor_email
    should_heal := some (AttrVal.boolV sh)
    status := some "deleted" }

/-- Core of the delete handler after the record fetch: the authorization
check of lines 142-154 (non-admins may only delete their own record,
otherwise 403 with no mutation, modelled as none) followed by the
should_heal decision and the metadata update. Returns the updated record
and the recorded should_heal flag. -/
def deleteOutcome (admin_emails : List String) (a : Actor) (item : Item)
    (now : String) : Option (Item × Bool) :=
  let isSup := is_super_admin admin_emails a
  let isBus := is_business_admin a
  let isAdmin := isSup || isBus
  let isOwner := a.user_id == item.user_id
  if !isAdmin && !isOwner then none
  else
    let sh := decide_should_heal isOwner isBus isSup
    some (applyDelete item now a.user_id a.user_email sh, sh)

/-- Result of the existence probe (s3.head_bucket) on one bucket:
success, a botocore ClientError carrying an error code and message, or a
non-ClientError exception carrying a message and a class name. -/
inductive ProbeResult where
  | found
  | clientError (code msg : String)
  | otherError (msg cls : String)
deriving Repr, DecidableEq

/-- Outcome of the s3.create_bucket call inside recreate_bucket. -/
inductive CreateResult where
  | created
  | alreadyExists
  | alreadyOwned
  | otherFail (msg : String)
deriving Repr, DecidableEq

/-- Missing-bucket classification of a ClientError,
monitor-buckets/index.py lines 121-124: code in 404/NoSuchBucket/NotFound
or one of those markers occurring in the message. -/
def isMissingClientError (code msg : String) : Bool :=
  code == "404" || code == "NoSuchBucket" || code == "NotFound" ||
  strContains msg "404" || strContains msg "Not Found" ||
  strContains msg "NoSuchBucket"

/-- Missing-bucket classification of a generic exception,
monitor-buckets/index.py lines 166-169. -/
def isMissingOtherError (msg cls : String) : Bool :=
  strContains msg "404" || strContains msg "Not Found" ||
  strContains msg "NoSuchBucket" || strContains cls "NoSuchBucket"

/-- Working-set filter of monitor-buckets/index.py lines 39-53: keep a
record when status is active (default when absent), or status is deleted
with a truthy deleted_at and a truthy coerced should_heal. -/
def shouldMonitor (item : Item) : Bool :=
  let status := item.status.getD "active"
  (status == "active") ||
    ((status == "deleted") && optStrTruthy item.deleted_at && attrTruthy item.should_heal)

/-- Whether the create step of recreate_bucket proceeds,
monitor-buckets/index.py lines 211-232: success, or an already-exists or
already-owned condition (caught directly or recognised in the message)
continues with configuration; any other create failure propagates and the
heal attempt returns failure. -/
def recreateSucceeds : CreateResult → Bool
  | CreateResult.created => true
  | CreateResult.alreadyExists => true
  | CreateResult.alreadyOwned => true
  | CreateResult.otherFail msg =>
      strContains msg "BucketAlreadyExists" || strContains msg "AlreadyOwnedByYou"

/-- The metadata update of recreate_bucket, monitor-buckets/index.py lines
270-283: SET last_checked and healed_at to now, heal_count to
if_not_exists(heal_count, 0) + 1, status to active, REMOVE should_heal.
The deletion-audit attributes are not touched. -/
def healRecord (item : Item) (now : String) : Item :=
  { item with
    last_checked := some now
    healed_at := some now
    heal_count := some (item.heal_count.getD 0 + 1)
    status := some "active"
    should_heal := none }

/-- One call to recreate_bucket: if the create step proceeds, the record
is restored to active with heal metadata and True is returned; otherwise
the record is left unchanged and False is returned. -/
def attemptHeal (item : Item) (cr : CreateResult) (now : String) : Item × Bool :=
  if recreateSucceeds cr then (healRecord item now, true) else (item, false)

/-- Per-record body of the monitor loop, monitor-buckets/index.py lines
87-177, for a record already in the working set: on a successful probe a
deleted-and-healable record is restored to active (existence drift) and
otherwise only last_checked is refreshed; on a missing-classified
ClientError the record heals when deleted_at is truthy together with a
truthy should_heal and status deleted, heals as an orphan when deleted_at
is absent, and is skipped otherwise; a non-missing ClientError is logged
with no mutation; a generic exception heals only when classified missing.
Returns the resulting record and whether a heal happened. -/
def monitorStep (item : Item) (probe : ProbeResult) (cr : CreateResult)
    (now : String) : Item × Bool :=
  let current_status := item.status.getD "active"
  let shf := attrTruthy item.should_heal
  match probe with
  | ProbeResult.found =>
      if current_status == "deleted" && shf then
        ({ item with last_checked := some now, status := some "active",
                     should_heal := none }, false)
      else
        ({ item with last_checked := some now }, false)
  | ProbeResult.clientError code msg =>
      if isMissingClientError code msg then
        if optStrTruthy item.deleted_at then
          if shf && (current_status == "deleted") then
            attemptHeal item cr now
          else (item, false)
        else attemptHeal item cr now
      else (item, false)
  | ProbeResult.otherError msg cls =>
      if isMissingOtherError msg cls then attemptHeal item cr now
      else (item, false)

/-- One record of one sweep cycle: records outside the working set are
never probed or mutated; records inside go through monitorStep. -/
def sweepItem (item : Item) (probe : ProbeResult) (cr : CreateResult)
    (now : String) : Item × Bool :=
  if shouldMonitor item then monitorStep item probe cr now else (item, false)

/-- A full sweep over the table: each record is processed exactly once,
independently; probe and create outcomes are given per bucket name.
Returns the resulting table and the healed_buckets count. -/
def sweep (items : List Item) (probe : String → ProbeResult)
    (cr : String → CreateResult) (now : String) : List Item × Nat :=
  let results := items.map fun i => sweepItem i (probe i.bucket_name) (cr i.bucket_name) now
  (results.map Prod.fst, (results.map Prod.snd).count true)

/-- Configuration state of one underlying container, the two settings that
recreate_bucket reapplies: the public access block and default encryption. -/
structure BucketState where
  pab : Bool
  encryption : Bool
deriving Repr, DecidableEq

/-- The create step of recreate_bucket against a modelled object store:
an absent container is created with default configuration, an existing
container owned by this system raises BucketAlreadyOwnedByYou, which the
code treats as continue-with-configuration. -/
def s3CreateOutcome (s : Option BucketState) : CreateResult × Option BucketState :=
  match s with
  | none => (CreateResult.created, some ⟨false, false⟩)
  | some b => (CreateResult.alreadyOwned, some b)

/-- The provisioning effect of recreate_bucket on the object store: create
or confirm the container, then reapply the public access block and
encryption configuration. Returns the new store state and success. -/
def recreateProvision (s : Option BucketState) : Option BucketState × Bool :=
  let res := s3CreateOutcome s
  if recreateSucceeds res.1 then
    match res.2 with
    | some b => (some { b with pab := true, encryption := true }, true)
    | none => (none, true)
  else (s, false)

end AutoHeal

namespace AutoHeal

/-- A sample active record owned by u1, used by concrete witnesses. -/
def sampleItem : Item :=
  ⟨"u1#proj", "dev-proj-ab12", "u1", "owner@x.com", "proj",
   some "active", none, none, none, none, none, none, none⟩

/-- The owner of sampleItem, in no admin group. -/
def ownerActor : Actor := ⟨"u1", "owner@x.com", []⟩

/-- A business admin who does not own sampleItem. -/
def bizActor : Actor := ⟨"u9", "ba@x.com", ["business-admins"]⟩

/-- An actor in both the admins and the business-admins groups. -/
def dualActor : Actor := ⟨"u2", "eve@x.com", ["admins", "business-admins"]⟩

/-- A super admin (admins group only) who does not own sampleItem. -/
def superActor : Actor := ⟨"u3", "root@x.com", ["admins"]⟩

/-- A deleted-terminal record: status deleted, should_heal false. -/
def terminalItem : Item :=
  { sampleItem with
    status := some "deleted"
    deleted_at := some "t1"
    deleted_by := some "u1"
    should_heal := some (AttrVal.boolV false) }

/-- A previously healed record: active but with deletion audit fields
still present and no should_heal attribute. -/
def healedItem : Item :=
  { sampleItem with
    deleted_at := some "t1"
    deleted_by := some "u9"
    heal_count := some 1
    healed_at := some "t2"
    last_checked := some "t2" }

/-- A deleted record whose stored should_heal is the string false. -/
def strFlagItem : Item :=
  { sampleItem with
    status := some "deleted"
    deleted_at := some "t1"
    deleted_by := some "u1"
    should_heal := some (AttrVal.strV "false") }

end AutoHeal

namespace AutoHeal

/-- C1: for every deletion performed by the owner of the record, an actor
who is neither a business admin nor a super admin, the delete path records
should_heal = false, and any subsequent sweep excludes the resulting
record from its working set and leaves it unchanged in the deleted state,
whatever the probe outcome. -/
theorem C1_owner_delete_is_terminal
    (emails : List String) (a : Actor) (item : Item) (now : String)
    (p : ProbeResult) (cr : CreateResult) (n2 : String)
    (hsup : is_super_admin emails a = false)
    (hbus : is_business_admin a = false)
    (hown : a.user_id = item.user_id) :
    deleteOutcome emails a item now
      = some (applyDelete item now a.user_id a.user_email false, false) ∧
    (applyDelete item now a.user_id a.user_email false).status = some "deleted" ∧
    (applyDelete item now a.user_id a.user_email false).should_heal
      = some (AttrVal.boolV false) ∧
    shouldMonitor (applyDelete item now a.user_id a.user_email false) = false ∧
    sweepItem (applyDelete item now a.user_id a.user_email false) p cr n2
      = (applyDelete item now a.user_id a.user_email false, false) := by
  have hsm : shouldMonitor (applyDelete item now a.user_id a.user_email false) = false := by
    simp [shouldMonitor, applyDelete, attrTruthy]
  refine ⟨?_, rfl, rfl, hsm, ?_⟩
  · simp [deleteOutcome, hsup, hbus, hown, decide_should_heal]
  · simp [sweepItem, hsm]

/-- C1 witness: the owner of sampleItem deletes it; the record becomes
deleted-terminal and a missing-resource sweep leaves it untouched. -/
theorem C1_owner_delete_is_terminal_witness :
    is_super_admin [] ownerActor = false ∧
    is_business_admin ownerActor = false ∧
    ownerActor.user_id = sampleItem.user_id ∧
    (deleteOutcome [] ownerActor sampleItem "t1"
      = some (applyDelete sampleItem "t1" ownerActor.user_id ownerActor.user_email false, false) ∧
    (applyDelete sampleItem "t1" ownerActor.user_id ownerActor.user_email false).status = some "deleted" ∧
    (applyDelete sampleItem "t1" ownerActor.user_id ownerActor.user_email false).should_heal
      = some (AttrVal.boolV false) ∧
    shouldMonitor (applyDelete sampleItem "t1" ownerActor.user_id ownerActor.user_email false) = false ∧
    sweepItem (applyDelete sampleItem "t1" ownerActor.user_id ownerActor.user_email false)
        (ProbeResult.clientError "404" "") CreateResult.created "t2"
      = (applyDelete sampleItem "t1" ownerActor.user_id ownerActor.user_email false, false)) :=
  ⟨by decide, by decide, by decide,
   C1_owner_delete_is_terminal [] ownerActor sampleItem "t1"
     (ProbeResult.clientError "404" "") CreateResult.created "t2"
     (by decide) (by decide) (by decide)⟩

/-- C2: for every deletion performed by a business admin on a record of
another user, the delete path records should_heal = true, the resulting
record is in the working set of the sweep, and a sweep whose probe
classifies the resource as missing and whose recreation succeeds heals
it: status back to active, deleted_at and deleted_by unchanged. -/
theorem C2_business_admin_delete_heals
    (emails : List String) (a : Actor) (item : Item)
    (now code msg : String) (cr : CreateResult) (n2 : String)
    (hbus : is_business_admin a = true)
    (hown : a.user_id ≠ item.user_id)
    (hnow : now ≠ "")
    (hmiss : isMissingClientError code msg = true)
    (hcr : recreateSucceeds cr = true) :
    deleteOutcome emails a item now
      = some (applyDelete item now a.user_id a.user_email true, true) ∧
    shouldMonitor (applyDelete item now a.user_id a.user_email true) = true ∧
    sweepItem (applyDelete item now a.user_id a.user_email true)
        (ProbeResult.clientError code msg) cr n2
      = (healRecord (applyDelete item now a.user_id a.user_email true) n2, true) ∧
    (healRecord (applyDelete item now a.user_id a.user_email true) n2).status
      = some "active" ∧
    (healRecord (applyDelete item now a.user_id a.user_email true) n2).deleted_at
      = some now ∧
    (healRecord (applyDelete item now a.user_id a.user_email true) n2).deleted_by
      = some a.user_id := by
  have hnb : (now != "") = true := by simpa [bne_iff_ne] using hnow
  have hsm : shouldMonitor (applyDelete item now a.user_id a.user_email true) = true := by
    simp [shouldMonitor, applyDelete, attrTruthy, optStrTruthy, hnb]
  refine ⟨?_, hsm, ?_, rfl, rfl, rfl⟩
  · simp [deleteOutcome, hbus, decide_should_heal]
  · have hstep : sweepItem (applyDelete item now a.user_id a.user_email true)
        (ProbeResult.clientError code msg) cr n2
        = monitorStep (applyDelete item now a.user_id a.user_email true)
            (ProbeResult.clientError code msg) cr n2 := by
      simp [sweepItem, hsm]
    rw [hstep]
    simp [monitorStep, hmiss, applyDelete, optStrTruthy, hnb,
      attrTruthy, attemptHeal, hcr, healRecord]

/-- C2 witness: bizActor, a business admin, deletes sampleItem owned by
u1; a later missing-resource sweep heals the record with the deletion
audit fields preserved. -/
theorem C2_business_admin_delete_heals_witness :
    is_business_admin bizActor = true ∧
    bizActor.user_id ≠ sampleItem.user_id ∧
    "t1" ≠ "" ∧
    isMissingClientError "404" "" = true ∧
    recreateSucceeds CreateResult.created = true ∧
    (deleteOutcome [] bizActor sampleItem "t1"
      = some (applyDelete sampleItem "t1" bizActor.user_id bizActor.user_email true, true) ∧
    shouldMonitor (applyDelete sampleItem "t1" bizActor.user_id bizActor.user_email true) = true ∧
    sweepItem (applyDelete sampleItem "t1" bizActor.user_id bizActor.user_email true)
        (ProbeResult.clientError "404" "") CreateResult.created "t2"
      = (healRecord (applyDelete sampleItem "t1" bizActor.user_id bizActor.user_email true) "t2", true) ∧
    (healRecord (applyDelete sampleItem "t1" bizActor.user_id bizActor.user_email true) "t2").status
      = some "active" ∧
    (healRecord (applyDelete sampleItem "t1" bizActor.user_id bizActor.user_email true) "t2").deleted_at
      = some "t1" ∧
    (healRecord (applyDelete sampleItem "t1" bizActor.user_id bizActor.user_email true) "t2").deleted_by
      = some bizActor.user_id) :=
  ⟨by decide, by decide, by decide, by decide, by decide,
   C2_business_admin_delete_heals [] bizActor sampleItem "t1" "404" "" CreateResult.created "t2"
     (by decide) (by decide) (by decide) (by decide) (by decide)⟩

/-- C3 counterexample: dualActor is a super admin (admins group) but also
sits in the business-admins group; deleting sampleItem, owned by another
user, records should_heal = true, refuting the claim that a super admin
deletion records should_heal = false regardless of other group
memberships. -/
theorem C3_counterexample :
    is_super_admin [] dualActor = true ∧
    deleteOutcome [] dualActor sampleItem "t1"
      = some (applyDelete sampleItem "t1" dualActor.user_id dualActor.user_email true, true) := by
  constructor
  · decide
  · decide

/-- C3 amended: for every deletion performed by a super admin who is not
also a business admin, the delete path records should_heal = false,
regardless of whether the actor owns the record. -/
theorem C3_super_admin_delete_no_heal
    (emails : List String) (a : Actor) (item : Item) (now : String)
    (hsup : is_super_admin emails a = true)
    (hbus : is_business_admin a = false) :
    deleteOutcome emails a item now
      = some (applyDelete item now a.user_id a.user_email false, false) := by
  simp [deleteOutcome, hsup, hbus, decide_should_heal]

/-- C3 witness: superActor, in the admins group only, deletes sampleItem
owned by another user; should_heal is recorded false. -/
theorem C3_super_admin_delete_no_heal_witness :
    is_super_admin [] superActor = true ∧
    is_business_admin superActor = false ∧
    deleteOutcome [] superActor sampleItem "t1"
      = some (applyDelete sampleItem "t1" superActor.user_id superActor.user_email false, false) :=
  ⟨by decide, by decide,
   C3_super_admin_delete_no_heal [] superActor sampleItem "t1" (by decide) (by decide)⟩

end AutoHeal

namespace AutoHeal

/-- Helper: a recreate_bucket call that reports success is exactly the
heal metadata update. -/
theorem attemptHeal_of_success (item : Item) (cr : CreateResult) (now : String)
    (h : (attemptHeal item cr now).2 = true) :
    attemptHeal item cr now = (healRecord item now, true) := by
  unfold attemptHeal at h ⊢
  split at h
  · simp_all
  · simp_all

/-- C4: whenever the per-record monitor body reports a heal, the resulting
record is exactly the heal metadata update: status active, should_heal
removed, healed_at set to the heal time, heal_count incremented by exactly
one from its previous value (0 when absent), hence non-decreasing. -/
theorem C4_heal_updates_metadata
    (item : Item) (p : ProbeResult) (cr : CreateResult) (now : String)
    (h : (monitorStep item p cr now).2 = true) :
    monitorStep item p cr now = (healRecord item now, true) ∧
    (healRecord item now).status = some "active" ∧
    (healRecord item now).should_heal = none ∧
    (healRecord item now).healed_at = some now ∧
    (healRecord item now).heal_count = some (item.heal_count.getD 0 + 1) ∧
    item.heal_count.getD 0 ≤ (healRecord item now).heal_count.getD 0 := by
  refine ⟨?_, rfl, rfl, rfl, rfl, ?_⟩
  · cases p with
    | found =>
        simp only [monitorStep] at h
        split at h <;> simp at h
    | clientError code msg =>
        simp only [monitorStep] at h ⊢
        split at h <;> rename_i h1
        · split at h <;> rename_i h2
          · split at h <;> rename_i h3
            · simp [h1, h2, h3, attemptHeal_of_success _ _ _ h]
            · simp at h
          · simp [h1, h2, attemptHeal_of_success _ _ _ h]
        · simp at h
    | otherError msg cls =>
        simp only [monitorStep] at h ⊢
        split at h <;> rename_i h1
        · simp [h1, attemptHeal_of_success _ _ _ h]
        · simp at h
  · simp [healRecord]

/-- C4 witness: an orphaned active record with a missing bucket heals;
the heal sets heal_count from absent to 1 and leaves should_heal absent. -/
theorem C4_heal_updates_metadata_witness :
    (monitorStep sampleItem (ProbeResult.clientError "404" "") CreateResult.created "t2").2 = true ∧
    (monitorStep sampleItem (ProbeResult.clientError "404" "") CreateResult.created "t2"
      = (healRecord sampleItem "t2", true) ∧
    (healRecord sampleItem "t2").status = some "active" ∧
    (healRecord sampleItem "t2").should_heal = none ∧
    (healRecord sampleItem "t2").healed_at = some "t2" ∧
    (healRecord sampleItem "t2").heal_count = some (sampleItem.heal_count.getD 0 + 1) ∧
    sampleItem.heal_count.getD 0 ≤ (healRecord sampleItem "t2").heal_count.getD 0) :=
  ⟨by decide,
   C4_heal_updates_metadata sampleItem (ProbeResult.clientError "404" "")
     CreateResult.created "t2" (by decide)⟩

/-- C5: a deleted record whose coerced should_heal is false is excluded
from the working set of the sweep, and a sweep leaves it unchanged with no
heal, whatever the probe and create outcomes; a whole-table sweep
containing only this record returns it unchanged with zero heals. -/
theorem C5_terminal_excluded_from_sweep
    (item : Item) (p : ProbeResult) (cr : CreateResult) (now : String)
    (hstat : item.status = some "deleted")
    (hsh : attrTruthy item.should_heal = false) :
    shouldMonitor item = false ∧
    sweepItem item p cr now = (item, false) ∧
    sweep [item] (fun _ => p) (fun _ => cr) now = ([item], 0) := by
  have hsm : shouldMonitor item = false := by
    simp [shouldMonitor, hstat, hsh]
  refine ⟨hsm, by simp [sweepItem, hsm], ?_⟩
  simp [sweep, sweepItem, hsm]

/-- C5 witness: terminalItem, deleted with should_heal false, is excluded
and untouched by a missing-resource sweep. -/
theorem C5_terminal_excluded_from_sweep_witness :
    terminalItem.status = some "deleted" ∧
    attrTruthy terminalItem.should_heal = false ∧
    (shouldMonitor terminalItem = false ∧
    sweepItem terminalItem (ProbeResult.clientError "404" "") CreateResult.created "t2"
      = (terminalItem, false) ∧
    sweep [terminalItem] (fun _ => ProbeResult.clientError "404" "")
        (fun _ => CreateResult.created) "t2" = ([terminalItem], 0)) :=
  ⟨by decide, by decide,
   C5_terminal_excluded_from_sweep terminalItem (ProbeResult.clientError "404" "")
     CreateResult.created "t2" (by decide) (by decide)⟩

/-- C6: a probe failure that is not classified as resource-not-found, as a
ClientError or as a generic exception, leaves the record completely
unchanged and performs no recreation. -/
theorem C6_non_missing_error_untouched
    (item : Item) (code msg m cls : String) (cr cr2 : CreateResult) (now n2 : String)
    (h1 : isMissingClientError code msg = false)
    (h2 : isMissingOtherError m cls = false) :
    monitorStep item (ProbeResult.clientError code msg) cr now = (item, false) ∧
    monitorStep item (ProbeResult.otherError m cls) cr2 n2 = (item, false) := by
  constructor
  · simp [monitorStep, h1]
  · simp [monitorStep, h2]

/-- C6 witness: a 403 permission ClientError and a connection-timeout
exception are not treated as missing and leave sampleItem unchanged. -/
theorem C6_non_missing_error_untouched_witness :
    isMissingClientError "403" "An error occurred (403): Forbidden" = false ∧
    isMissingOtherError "Connection timed out" "ConnectTimeoutError" = false ∧
    (monitorStep sampleItem
        (ProbeResult.clientError "403" "An error occurred (403): Forbidden")
        CreateResult.created "t2" = (sampleItem, false) ∧
    monitorStep sampleItem
        (ProbeResult.otherError "Connection timed out" "ConnectTimeoutError")
        CreateResult.created "t2" = (sampleItem, false)) :=
  ⟨by decide, by decide,
   C6_non_missing_error_untouched sampleItem "403" "An error occurred (403): Forbidden"
     "Connection timed out" "ConnectTimeoutError" CreateResult.created CreateResult.created
     "t2" "t2" (by decide) (by decide)⟩

/-- C7: an active record with no deletion metadata whose bucket is probed
missing is healed exactly once within one sweep: the sweep over a table
holding the record returns the healed record and a healed count of one,
with heal_count incremented by one and should_heal absent afterwards. -/
theorem C7_orphan_healed_exactly_once
    (item : Item) (code msg : String) (cr : CreateResult) (now : String)
    (hstat : item.status.getD "active" = "active")
    (hdel : item.deleted_at = none)
    (hmiss : isMissingClientError code msg = true)
    (hcr : recreateSucceeds cr = true) :
    sweep [item] (fun _ => ProbeResult.clientError code msg) (fun _ => cr) now
      = ([healRecord item now], 1) ∧
    (healRecord item now).heal_count = some (item.heal_count.getD 0 + 1) ∧
    (healRecord item now).should_heal = none := by
  have hsm : shouldMonitor item = true := by
    simp [shouldMonitor, hstat]
  have hms : monitorStep item (ProbeResult.clientError code msg) cr now
      = (healRecord item now, true) := by
    simp [monitorStep, hmiss, hdel, optStrTruthy, attemptHeal, hcr]
  refine ⟨?_, rfl, rfl⟩
  simp [sweep, sweepItem, hsm, hms]

/-- C7 witness: sampleItem, active with no deletion metadata, is healed
exactly once by a sweep that finds its bucket missing. -/
theorem C7_orphan_healed_exactly_once_witness :
    sampleItem.status.getD "active" = "active" ∧
    sampleItem.deleted_at = none ∧
    isMissingClientError "404" "" = true ∧
    recreateSucceeds CreateResult.created = true ∧
    (sweep [sampleItem] (fun _ => ProbeResult.clientError "404" "")
        (fun _ => CreateResult.created) "t2" = ([healRecord sampleItem "t2"], 1) ∧
    (healRecord sampleItem "t2").heal_count = some (sampleItem.heal_count.getD 0 + 1) ∧
    (healRecord sampleItem "t2").should_heal = none) :=
  ⟨by decide, by decide, by decide, by decide,
   C7_orphan_healed_exactly_once sampleItem "404" "" CreateResult.created "t2"
     (by decide) (by decide) (by decide) (by decide)⟩

end AutoHeal

namespace AutoHeal

/-- C8: provisioning is idempotent with respect to an already existing
container owned by this system: one invocation on an existing container
succeeds, and a second invocation right after also succeeds and produces
the same store outcome as the first. -/
theorem C8_provision_idempotent (b : BucketState) :
    (recreateProvision (some b)).2 = true ∧
    (recreateProvision ((recreateProvision (some b)).1)).2 = true ∧
    recreateProvision ((recreateProvision (some b)).1) = recreateProvision (some b) := by
  cases b with
  | mk p e => exact ⟨rfl, rfl, rfl⟩

/-- C9: a previously healed record, active with deletion-audit fields
still present and no should_heal attribute, is in the working set but is
never healed when its bucket is probed missing again: the missing branch
requires status deleted together with a truthy should_heal whenever
deleted_at is present, so the record is left unchanged and stays active. -/
theorem C9_healed_record_not_rehealed
    (item : Item) (d code msg : String) (cr : CreateResult) (now : String)
    (hstat : item.status = some "active")
    (hdel : item.deleted_at = some d)
    (hd : d ≠ "")
    (hsh : item.should_heal = none)
    (hmiss : isMissingClientError code msg = true) :
    shouldMonitor item = true ∧
    monitorStep item (ProbeResult.clientError code msg) cr now = (item, false) ∧
    item.status = some "active" := by
  have hdt : (d != "") = true := by simpa [bne_iff_ne] using hd
  refine ⟨?_, ?_, hstat⟩
  · simp [shouldMonitor, hstat]
  · simp [monitorStep, hmiss, hdel, hsh, optStrTruthy, attrTruthy, hdt]

/-- C9 witness: healedItem, active with a preserved audit trail, stays
active and unhealed when its bucket is probed missing again. -/
theorem C9_healed_record_not_rehealed_witness :
    healedItem.status = some "active" ∧
    healedItem.deleted_at = some "t1" ∧
    "t1" ≠ "" ∧
    healedItem.should_heal = none ∧
    isMissingClientError "404" "" = true ∧
    (shouldMonitor healedItem = true ∧
    monitorStep healedItem (ProbeResult.clientError "404" "") CreateResult.created "t3"
      = (healedItem, false) ∧
    healedItem.status = some "active") :=
  ⟨by decide, by decide, by decide, by decide, by decide,
   C9_healed_record_not_rehealed healedItem "t1" "404" "" CreateResult.created "t3"
     (by decide) (by decide) (by decide) (by decide) (by decide)⟩

/-- C10: the sweep coerces a string-valued should_heal with Python
truthiness: every nonempty string is treated as true, so a deleted record
carrying such a flag is in the working set and heals when its bucket is
missing; empty-string, absent, null and zero values are treated as false. -/
theorem C10_string_should_heal_truthy
    (item : Item) (d s code msg : String) (cr : CreateResult) (now : String)
    (hstat : item.status = some "deleted")
    (hdel : item.deleted_at = some d)
    (hd : d ≠ "")
    (hsh : item.should_heal = some (AttrVal.strV s))
    (hs : s ≠ "")
    (hmiss : isMissingClientError code msg = true)
    (hcr : recreateSucceeds cr = true) :
    attrTruthy item.should_heal = true ∧
    shouldMonitor item = true ∧
    monitorStep item (ProbeResult.clientError code msg) cr now
      = (healRecord item now, true) ∧
    attrTruthy (some (AttrVal.strV "")) = false ∧
    attrTruthy none = false ∧
    attrTruthy (some AttrVal.nullV) = false ∧
    attrTruthy (some (AttrVal.numV 0)) = false := by
  have hdt : (d != "") = true := by simpa [bne_iff_ne] using hd
  have hst : (s != "") = true := by simpa [bne_iff_ne] using hs
  have hat : attrTruthy item.should_heal = true := by simp [attrTruthy, hsh, hst]
  refine ⟨hat, ?_, ?_, rfl, rfl, rfl, rfl⟩
  · simp [shouldMonitor, hstat, hdel, optStrTruthy, hdt, hat]
  · simp [monitorStep, hmiss, hdel, hstat, optStrTruthy, hdt, hat,
      attemptHeal, hcr]

/-- C10 witness: strFlagItem carries should_heal as the string false, is
placed in the working set, and is healed when its bucket is missing. -/
theorem C10_string_should_heal_truthy_witness :
    strFlagItem.status = some "deleted" ∧
    strFlagItem.deleted_at = some "t1" ∧
    "t1" ≠ "" ∧
    strFlagItem.should_heal = some (AttrVal.strV "false") ∧
    "false" ≠ "" ∧
    isMissingClientError "404" "" = true ∧
    recreateSucceeds CreateResult.created = true ∧
    (attrTruthy strFlagItem.should_heal = true ∧
    shouldMonitor strFlagItem = true ∧
    monitorStep strFlagItem (ProbeResult.clientError "404" "") CreateResult.created "t2"
      = (healRecord strFlagItem "t2", true) ∧
    attrTruthy (some (AttrVal.strV "")) = false ∧
    attrTruthy none = false ∧
    attrTruthy (some AttrVal.nullV) = false ∧
    attrTruthy (some (AttrVal.numV 0)) = false) :=
  ⟨by decide, by decide, by decide, by decide, by decide, by decide, by decide,
   C10_string_should_heal_truthy strFlagItem "t1" "false" "404" "" CreateResult.created "t2"
     (by decide) (by decide) (by decide) (by decide) (by decide) (by decide) (by decide)⟩

end AutoHeal
